import Mathlib

/-!
A shallow embedding of the dependency-tracking memoization engine in
`src/parameterizedSelectorFactory.js` (the revision that tracks
`errorRunCount`, i.e. the variant whose `createResultRecord` initializes all
counters to zero and whose `evaluateParameterizedSelector` creates the result
record up front), together with `src/defaultOptions.js`.

Modelling decisions:
* JavaScript values are modelled by `JSVal`: an identity (`id`) standing for
  the reference of the value, plus its JS truthiness.  Strict equality `===`
  is equality of `JSVal`.
* The user-supplied transform function (`innerFn`) and the nested selector
  re-invocations performed during a dirty check
  (`dependencySelector.directRunFromParent`) are modelled as oracles: an
  `InnerRun` records what one invocation of `innerFn` returned (or threw)
  together with the dependency records collected on the call-stack frame
  pushed around it, and `depRun : DepRecord → DirectRunResult` gives the
  result record produced by re-invoking a recorded dependency.
* Logging callbacks and `console` calls are pure side channels and are not
  modelled, except that the warning emitted when `innerFn` throws is surfaced
  as the `warnedInnerFnException` flag of `EvalOut`.
* The mutations that an evaluation performs on *ancestor* call-stack frames
  (recording itself as a dependency of its parent, step 6 of the source) do
  not touch the selector's own result record or its counters and are modelled
  separately by `pushCallStackEntry`.
-/

namespace ParameterizedSelectors

/-- A JavaScript value: `id` is the identity used by strict equality `===`,
`truthy` is the value's JS truthiness. -/
structure JSVal where
  id : Nat
  truthy : Bool
deriving DecidableEq, Repr

/-- The JS literal `null` (falsy). -/
def jsNull : JSVal := ⟨0, false⟩

/-- The JS value `undefined` (falsy). -/
def jsUndefined : JSVal := ⟨1, false⟩

/-- A dependency record `[dependencySelector, dependencyKeyParams,
dependencyReturnValue]` as stored in `rootDependencies` / `ownDependencies`:
the selector is identified by a numeric handle. -/
structure DepRecord where
  sel : Nat
  params : JSVal
  value : JSVal
deriving DecidableEq, Repr

/-- The part of the result record returned by
`dependencySelector.directRunFromParent` that `hasAnyDependencyChanged`
destructures: `{ hasReturnValue, returnValue }`. -/
structure DirectRunResult where
  hasReturnValue : Bool
  returnValue : JSVal
deriving DecidableEq, Repr

/-- `hasAnyDependencyChanged(state, dependencyRecordList, options, ...)`:
walks the list, re-invokes each recorded dependency via `depRun` (the oracle
for `directRunFromParent`), and returns `true` at the first entry that could
not run (`!hasReturnValue`) or whose fresh value differs by strict equality
from the captured one; `false` if the walk finishes. -/
def hasAnyDependencyChanged (depRun : DepRecord → DirectRunResult) :
    List DepRecord → Bool
  | [] => false
  | d :: rest =>
    let r := depRun d
    if !r.hasReturnValue then true
    else if r.returnValue != d.value then true
    else hasAnyDependencyChanged depRun rest

/-- The run counters (per result record, and also the selector-wide
`global...` counters, which have the same six components). -/
structure RunCounts where
  invokeCount : Nat
  skippedRunCount : Nat
  phantomRunCount : Nat
  fullRunCount : Nat
  abortedRunCount : Nat
  errorRunCount : Nat
deriving DecidableEq, Repr

/-- Initial value of the selector-wide counters. -/
def initialRunCounts : RunCounts := ⟨0, 0, 0, 0, 0, 0⟩

/-- A persistent result record, one per selector instance and serialized
parameter key. -/
structure ResultRecord where
  state : JSVal
  rootDependencies : List DepRecord
  ownDependencies : List DepRecord
  hasReturnValue : Bool
  returnValue : JSVal
  error : Option JSVal
  invokeCount : Nat
  skippedRunCount : Nat
  phantomRunCount : Nat
  fullRunCount : Nat
  abortedRunCount : Nat
  errorRunCount : Nat
deriving DecidableEq, Repr

/-- `createResultRecord(state)`: the freshly created record, all counters
zero, no return value yet (`returnValue: null`, `error: null`). -/
def createResultRecord (state : JSVal) : ResultRecord :=
  { state := state
    rootDependencies := []
    ownDependencies := []
    hasReturnValue := false
    returnValue := jsNull
    error := none
    invokeCount := 0
    skippedRunCount := 0
    phantomRunCount := 0
    fullRunCount := 0
    abortedRunCount := 0
    errorRunCount := 0 }

/-- The six per-record counters of a record, as a `RunCounts`. -/
def ResultRecord.runCounts (r : ResultRecord) : RunCounts :=
  ⟨r.invokeCount, r.skippedRunCount, r.phantomRunCount, r.fullRunCount,
   r.abortedRunCount, r.errorRunCount⟩

/-- The configuration a selector instance closes over (the fields of
`options` that affect the state-relevant behaviour of
`evaluateParameterizedSelector`).  `compareIncomingStates` is an `Option`
because the source guards its use with the JS truthiness test
`isRootSelector && compareIncomingStates`. -/
structure SelectorOptions where
  isRootSelector : Bool
  compareIncomingStates : Option (JSVal → JSVal → Bool)
  compareSelectorResults : JSVal → JSVal → Bool
  performanceChecksEnabled : Bool
  warningsEnabled : Bool

/-- The step-2 test `state && previousState && ((isRootSelector &&
compareIncomingStates) ? compareIncomingStates(previousState, state) : state
=== previousState)`. -/
def incomingStateMatches (options : SelectorOptions)
    (previousState state : JSVal) : Bool :=
  state.truthy && previousState.truthy &&
    (match options.isRootSelector, options.compareIncomingStates with
      | true, some cis => cis previousState state
      | true, none => state == previousState
      | false, _ => state == previousState)

/-- Steps 1-3 of `evaluateParameterizedSelector`: decide whether the cached
result can be reused.  Reuse happens when the record has a return value and
either (step 2) the stored state matches the incoming one, or (step 3, only
for a non-root selector with at least one recorded dependency) the dirty
check `hasAnyDependencyChanged(rootDeps) && hasAnyDependencyChanged(ownDeps)`
reports no change. -/
def canUsePreviousResult (options : SelectorOptions)
    (depRun : DepRecord → DirectRunResult) (record : ResultRecord)
    (state : JSVal) : Bool :=
  if record.hasReturnValue then
    if incomingStateMatches options record.state state then true
    else if !options.isRootSelector &&
        (record.rootDependencies.length > 0 ||
          record.ownDependencies.length > 0) then
      !(hasAnyDependencyChanged depRun record.rootDependencies &&
        hasAnyDependencyChanged depRun record.ownDependencies)
    else false
  else false

/-- What one invocation of the user-supplied `innerFn` did. -/
inductive InnerOutcome where
  | returned : JSVal → InnerOutcome
  | threw : JSVal → InnerOutcome
deriving DecidableEq, Repr

/-- Oracle for one recomputation: the outcome of invoking `innerFn` inside a
freshly pushed call-stack frame, together with the `rootDependencies` and
`ownDependencies` collected on that frame by the nested selector calls. -/
structure InnerRun where
  result : InnerOutcome
  rootDeps : List DepRecord
  ownDeps : List DepRecord
deriving Repr

/-- The dependency-record update after a recomputation: `if
(!resultRecord.error && (callStackEntry.rootDependencies.length ||
callStackEntry.ownDependencies.length))` replace both lists. -/
def updateDependencyRecords (r : ResultRecord) (inner : InnerRun) :
    ResultRecord :=
  if r.error.isNone && (!inner.rootDeps.isEmpty || !inner.ownDeps.isEmpty) then
    { r with rootDependencies := inner.rootDeps
             ownDependencies := inner.ownDeps }
  else r

/-- Result of one `evaluateParameterizedSelector` call: the updated
selector-wide counters, the updated (and stored) result record, and whether
the call reported an `innerFn` exception through the warning channel. -/
structure EvalOut where
  globals : RunCounts
  record : ResultRecord
  warnedInnerFnException : Bool
deriving Repr

/-- `evaluateParameterizedSelector(state, keyParams, ...)`, restricted to one
result record (the one for the key computed from `keyParams`): `stored` is
the record previously in `resultRecordsByParam` (`none` when absent, in which
case the source creates one up front), `parentCanReRun` is the
`canReRun` flag of the top call-stack frame, `globals` the selector-wide
counters.  Counter increments happen only when `performanceChecksEnabled`. -/
def evaluateParameterizedSelector (options : SelectorOptions)
    (depRun : DepRecord → DirectRunResult) (inner : InnerRun)
    (parentCanReRun : Bool) (globals : RunCounts)
    (stored : Option ResultRecord) (state : JSVal) : EvalOut :=
  let record0 :=
    match stored with
    | some r => r
    | none => createResultRecord state
  let globals1 :=
    if options.performanceChecksEnabled then
      { globals with invokeCount := globals.invokeCount + 1 }
    else globals
  let record1 :=
    if options.performanceChecksEnabled then
      { record0 with invokeCount := record0.invokeCount + 1 }
    else record0
  let canUse := canUsePreviousResult options depRun record1 state
  let record2 := { record1 with state := state }
  if canUse then
    let globals2 :=
      if options.performanceChecksEnabled then
        { globals1 with skippedRunCount := globals1.skippedRunCount + 1 }
      else globals1
    let record3 :=
      if options.performanceChecksEnabled then
        { record2 with skippedRunCount := record2.skippedRunCount + 1 }
      else record2
    { globals := globals2, record := record3, warnedInnerFnException := false }
  else if !parentCanReRun then
    let record3 := { record2 with hasReturnValue := false }
    let globals2 :=
      if options.performanceChecksEnabled then
        { globals1 with abortedRunCount := globals1.abortedRunCount + 1 }
      else globals1
    let record4 :=
      if options.performanceChecksEnabled then
        { record3 with abortedRunCount := record3.abortedRunCount + 1 }
      else record3
    { globals := globals2, record := record4, warnedInnerFnException := false }
  else
    let oldReturnValue := record2.returnValue
    match inner.result with
    | .threw e =>
      let record3 :=
        { record2 with returnValue := jsUndefined
                       hasReturnValue := false
                       error := some e }
      let globals2 :=
        if options.performanceChecksEnabled then
          { globals1 with errorRunCount := globals1.errorRunCount + 1 }
        else globals1
      let record4 :=
        if options.performanceChecksEnabled then
          { record3 with errorRunCount := record3.errorRunCount + 1 }
        else record3
      { globals := globals2
        record := updateDependencyRecords record4 inner
        warnedInnerFnException := options.warningsEnabled }
    | .returned v =>
      if record2.hasReturnValue &&
          options.compareSelectorResults oldReturnValue v then
        let globals2 :=
          if options.performanceChecksEnabled then
            { globals1 with phantomRunCount := globals1.phantomRunCount + 1 }
          else globals1
        let record3 :=
          if options.performanceChecksEnabled then
            { record2 with phantomRunCount := record2.phantomRunCount + 1 }
          else record2
        { globals := globals2
          record := updateDependencyRecords record3 inner
          warnedInnerFnException := false }
      else
        let record3 :=
          { record2 with returnValue := v
                         hasReturnValue := true
                         error := none }
        let globals2 :=
          if options.performanceChecksEnabled then
            { globals1 with fullRunCount := globals1.fullRunCount + 1 }
          else globals1
        let record4 :=
          if options.performanceChecksEnabled then
            { record3 with fullRunCount := record3.fullRunCount + 1 }
          else record3
        { globals := globals2
          record := updateDependencyRecords record4 inner
          warnedInnerFnException := false }

/-- Outcome of a call through the public wrapper: a returned value or a
thrown error. -/
inductive CallOutcome where
  | value : JSVal → CallOutcome
  | thrown : JSVal → CallOutcome
deriving DecidableEq, Repr

/-- The public wrapper `parameterizedSelector(...args)` for a fresh external
call (empty call stack): it pushes a top-level frame, whose `canReRun`
inherits `true` from the empty stack, delegates to
`evaluateParameterizedSelector`, pops the frame, and then re-throws
`result.error` if set, else returns `result.returnValue`. -/
def parameterizedSelector (options : SelectorOptions)
    (depRun : DepRecord → DirectRunResult) (inner : InnerRun)
    (globals : RunCounts) (stored : Option ResultRecord) (state : JSVal) :
    EvalOut × CallOutcome :=
  let out := evaluateParameterizedSelector options depRun inner true globals
    stored state
  (out, match out.record.error with
    | some e => .thrown e
    | none => .value out.record.returnValue)

/-- `parameterizedSelector.hasCachedResult(...args)`: pushes a frame with
`canReRun: false`, delegates to `evaluateParameterizedSelector`, pops, and
returns `result.hasReturnValue`. -/
def hasCachedResult (options : SelectorOptions)
    (depRun : DepRecord → DirectRunResult) (inner : InnerRun)
    (globals : RunCounts) (stored : Option ResultRecord) (state : JSVal) :
    Bool × EvalOut :=
  let out := evaluateParameterizedSelector options depRun inner false globals
    stored state
  (out.record.hasReturnValue, out)

/-- One call to `evaluateParameterizedSelector` in a call sequence: the
state passed in, the `canReRun` flag of the frame on top of the stack at
that point, and the oracle for the recomputation it might perform. -/
structure CallSpec where
  state : JSVal
  parentCanReRun : Bool
  inner : InnerRun
deriving Repr

/-- Run a sequence of calls against one result-record slot of the store,
threading the stored record and the selector-wide counters. -/
def runCalls (options : SelectorOptions)
    (depRun : DepRecord → DirectRunResult) :
    List CallSpec → RunCounts → Option ResultRecord →
      RunCounts × Option ResultRecord
  | [], g, stored => (g, stored)
  | c :: rest, g, stored =>
    let out := evaluateParameterizedSelector options depRun c.inner
      c.parentCanReRun g stored c.state
    runCalls options depRun rest out.globals (some out.record)

/-- Run a sequence of `hasCachedResult` probes (each as state + oracle)
against one result-record slot of the store. -/
def runProbes (options : SelectorOptions)
    (depRun : DepRecord → DirectRunResult) :
    List (JSVal × InnerRun) → RunCounts → Option ResultRecord →
      RunCounts × Option ResultRecord
  | [], g, stored => (g, stored)
  | (s, inner) :: rest, g, stored =>
    let out := hasCachedResult options depRun inner g stored s
    runProbes options depRun rest out.2.globals (some out.2.record)

/-- The `fullRunCount` reported for a stored slot (`0` when no record
exists yet, as in `getFullRunCountForParams`). -/
def storedFullRunCount : Option ResultRecord → Nat
  | some r => r.fullRunCount
  | none => 0

/-- The `returnValue` held in a stored slot (`null` when no record exists
yet, matching the field's initial value in `createResultRecord`). -/
def storedReturnValue : Option ResultRecord → JSVal
  | some r => r.returnValue
  | none => jsNull

/-- The six per-param counters reported for a stored slot (all `0` when no
record exists yet, as in `getAllCountsForParams`). -/
def storedRunCounts : Option ResultRecord → RunCounts
  | some r => r.runCounts
  | none => ⟨0, 0, 0, 0, 0, 0⟩

/-! ### The global call stack (`pushCallStackEntry` / `popCallStackEntry`)

The stack is modelled as a list whose head is the top frame. -/

/-- One entry of `parameterizedSelectorCallStack`. -/
structure CallStackEntry where
  state : JSVal
  canReRun : Bool
  shouldRecordDependencies : Bool
  rootDependencies : List DepRecord
  ownDependencies : List DepRecord
deriving Repr

/-- The `overrideValues` object spread over a new call-stack entry: each
field is `none` when the override object does not mention it. -/
structure CallStackOverrides where
  canReRun : Option Bool
  shouldRecordDependencies : Option Bool
deriving Repr

/-- The empty override object `{}`. -/
def noOverrides : CallStackOverrides := ⟨none, none⟩

/-- The override object `{ canReRun: false }` used by `hasCachedResult`. -/
def probeOverrides : CallStackOverrides := ⟨some false, none⟩

/-- The `canReRun` a new frame starts from: `topOfCallStack ?
topOfCallStack.canReRun : true`. -/
def inheritedCanReRun : List CallStackEntry → Bool
  | [] => true
  | top :: _ => top.canReRun

/-- `pushCallStackEntry(state, hasStaticDependencies, overrideValues)`: the
new entry inherits `canReRun` from the top of the stack (`true` when the
stack is empty) and defaults `shouldRecordDependencies` to `true`; the
override values, when present, win. -/
def pushCallStackEntry (stack : List CallStackEntry) (state : JSVal)
    (ov : CallStackOverrides) : List CallStackEntry :=
  { state := state
    canReRun := ov.canReRun.getD (inheritedCanReRun stack)
    shouldRecordDependencies := ov.shouldRecordDependencies.getD true
    rootDependencies := []
    ownDependencies := [] } :: stack

/-- `popCallStackEntry()`. -/
def popCallStackEntry (stack : List CallStackEntry) : List CallStackEntry :=
  stack.tail

/-- The stack invariant: reading from the top down, no frame has
`canReRun = true` while the frame directly beneath it has
`canReRun = false`. -/
def canReRunNeverWidens : List CallStackEntry → Bool
  | [] => true
  | [_] => true
  | a :: b :: rest =>
    (!a.canReRun || b.canReRun) && canReRunNeverWidens (b :: rest)

/-! ### Factory configuration (`defaultOptions.js`)

`createKeyFromParams` and `isRootSelector` default to the
`willThrowErrorIfNotSet` thunk, a function value that throws when called. -/

/-- A configurable option slot: explicitly set, or left at the
`willThrowErrorIfNotSet(label)` default (which is a function object). -/
inductive ConfigValue (α : Type) where
  | set : α → ConfigValue α
  | unsetThrower : ConfigValue α
deriving Repr

/-- The `Error('parameterizedSelector: ... must be set.')` object thrown by
a `willThrowErrorIfNotSet` thunk (error objects are truthy). -/
def mustBeSetError : JSVal := ⟨2, true⟩

/-- Calling the `createKeyFromParams` slot, as `evaluateParameterizedSelector`
does on every call: an explicitly set function returns a key, the
`willThrowErrorIfNotSet` default throws. -/
def applyCreateKeyFromParams :
    ConfigValue (JSVal → Nat) → JSVal → Except JSVal Nat
  | .set f, p => .ok (f p)
  | .unsetThrower, _ => .error mustBeSetError

/-- JS truthiness of the `isRootSelector` slot as the source consumes it
(`if (isRootSelector)`, `isRootSelector && ...`): an explicitly set boolean
has its own truthiness; the `willThrowErrorIfNotSet` default is a function
object and therefore truthy. -/
def isRootSelectorTruthy : ConfigValue Bool → Bool
  | .set b => b
  | .unsetThrower => true

/-- The two required factory options of `defaultOptions.js`. -/
structure FactoryConfig where
  createKeyFromParams : ConfigValue (JSVal → Nat)
  isRootSelector : ConfigValue Bool

/-- The first external use of a selector built from `cfg` (no result record
exists yet).  `evaluateParameterizedSelector` begins by computing
`keyParamsString = createKeyFromParams(keyParams)`; if that slot is the
`willThrowErrorIfNotSet` default, the thunk throws and the error propagates
out of the public wrapper (it is thrown before the `try` around `innerFn`).
Otherwise evaluation proceeds, reading `isRootSelector` only for its JS
truthiness, with the default comparators (`SAME_REFERENCE` incoming-state
comparison modelled as strict equality). -/
def firstUse (cfg : FactoryConfig) (depRun : DepRecord → DirectRunResult)
    (inner : InnerRun) (state params : JSVal) : CallOutcome :=
  match applyCreateKeyFromParams cfg.createKeyFromParams params with
  | .error e => .thrown e
  | .ok _key =>
    let options : SelectorOptions :=
      { isRootSelector := isRootSelectorTruthy cfg.isRootSelector
        compareIncomingStates := some (fun a b => a == b)
        compareSelectorResults := fun a b => a == b
        performanceChecksEnabled := false
        warningsEnabled := true }
    (parameterizedSelector options depRun inner initialRunCounts none
      state).2

/-! ### Helper lemmas -/

theorem updateDependencyRecords_runCounts (r : ResultRecord) (i : InnerRun) :
    (updateDependencyRecords r i).runCounts = r.runCounts := by
  unfold updateDependencyRecords
  split <;> rfl

theorem updateDependencyRecords_returnValue (r : ResultRecord)
    (i : InnerRun) : (updateDependencyRecords r i).returnValue =
      r.returnValue := by
  unfold updateDependencyRecords
  split <;> rfl

theorem updateDependencyRecords_state (r : ResultRecord) (i : InnerRun) :
    (updateDependencyRecords r i).state = r.state := by
  unfold updateDependencyRecords
  split <;> rfl

theorem updateDependencyRecords_hasReturnValue (r : ResultRecord)
    (i : InnerRun) : (updateDependencyRecords r i).hasReturnValue =
      r.hasReturnValue := by
  unfold updateDependencyRecords
  split <;> rfl

theorem updateDependencyRecords_error (r : ResultRecord) (i : InnerRun) :
    (updateDependencyRecords r i).error = r.error := by
  unfold updateDependencyRecords
  split <;> rfl

theorem updateDependencyRecords_invokeCount (r : ResultRecord)
    (i : InnerRun) : (updateDependencyRecords r i).invokeCount =
      r.invokeCount := by
  unfold updateDependencyRecords
  split <;> rfl

theorem updateDependencyRecords_skippedRunCount (r : ResultRecord)
    (i : InnerRun) : (updateDependencyRecords r i).skippedRunCount =
      r.skippedRunCount := by
  unfold updateDependencyRecords
  split <;> rfl

theorem updateDependencyRecords_phantomRunCount (r : ResultRecord)
    (i : InnerRun) : (updateDependencyRecords r i).phantomRunCount =
      r.phantomRunCount := by
  unfold updateDependencyRecords
  split <;> rfl

theorem updateDependencyRecords_fullRunCount (r : ResultRecord)
    (i : InnerRun) : (updateDependencyRecords r i).fullRunCount =
      r.fullRunCount := by
  unfold updateDependencyRecords
  split <;> rfl

theorem updateDependencyRecords_abortedRunCount (r : ResultRecord)
    (i : InnerRun) : (updateDependencyRecords r i).abortedRunCount =
      r.abortedRunCount := by
  unfold updateDependencyRecords
  split <;> rfl

theorem updateDependencyRecords_errorRunCount (r : ResultRecord)
    (i : InnerRun) : (updateDependencyRecords r i).errorRunCount =
      r.errorRunCount := by
  unfold updateDependencyRecords
  split <;> rfl

theorem canUsePreviousResult_invoke_bump (options : SelectorOptions)
    (depRun : DepRecord → DirectRunResult) (r : ResultRecord) (n : Nat)
    (state : JSVal) :
    canUsePreviousResult options depRun { r with invokeCount := n } state =
      canUsePreviousResult options depRun r state := rfl

theorem canReRunNeverWidens_tail (stack : List CallStackEntry)
    (hok : canReRunNeverWidens stack = true) :
    canReRunNeverWidens stack.tail = true := by
  match stack with
  | [] => rfl
  | [_] => rfl
  | a :: b :: rest =>
    unfold canReRunNeverWidens at hok
    simp only [Bool.and_eq_true] at hok
    exact hok.2

/-! ### Claim C7 -/

/-- Claim C7: during a dependency dirty check, a recorded dependency whose
re-invocation produces a result with `hasReturnValue = false` (for example
because its transform threw, or it could not re-run) makes
`hasAnyDependencyChanged` return `true` for the list containing it, so that
list reports "changed". -/
theorem hasAnyDependencyChanged_of_dependency_failure
    (depRun : DepRecord → DirectRunResult) (l : List DepRecord)
    (hfail : ∃ d ∈ l, (depRun d).hasReturnValue = false) :
    hasAnyDependencyChanged depRun l = true := by
  induction l with
  | nil => simp at hfail
  | cons d0 rest ih =>
    rcases hfail with ⟨d, hd, hfr⟩
    unfold hasAnyDependencyChanged
    by_cases h0 : (depRun d0).hasReturnValue
    · rcases List.mem_cons.mp hd with rfl | hmem
      · rw [hfr] at h0
        exact absurd h0 (by simp)
      · by_cases hne : (depRun d0).returnValue != d0.value
        · simp [h0, hne]
        · simp [h0, hne]
          simp [hne, ih ⟨d, hmem, hfr⟩]
    · simp [h0]

/-- Witness for C7: a concrete two-entry list whose second dependency cannot
run is reported as changed. -/
theorem hasAnyDependencyChanged_of_dependency_failure_witness :
    (∃ d ∈ [DepRecord.mk 1 jsNull ⟨10, true⟩, DepRecord.mk 2 jsNull ⟨11, true⟩],
        ((fun d => if d.sel = 2 then DirectRunResult.mk false jsUndefined
          else DirectRunResult.mk true ⟨10, true⟩) d).hasReturnValue = false) ∧
    hasAnyDependencyChanged
      (fun d => if d.sel = 2 then DirectRunResult.mk false jsUndefined
        else DirectRunResult.mk true ⟨10, true⟩)
      [DepRecord.mk 1 jsNull ⟨10, true⟩, DepRecord.mk 2 jsNull ⟨11, true⟩]
      = true :=
  ⟨by decide,
   hasAnyDependencyChanged_of_dependency_failure _ _ (by decide)⟩

/-! ### Claim C10 -/

/-- Claim C10: the state-identity reuse check `state && previousState && ...`
can only succeed when both the incoming and the stored state are truthy.  A
call made with a falsy state is never marked reusable by state identity, even
when the stored state is the identical value, so (in the absence of recorded
dependency edges) such a call always proceeds to recomputation. -/
theorem falsy_state_never_matches (options : SelectorOptions)
    (depRun : DepRecord → DirectRunResult) (r : ResultRecord)
    (previousState s : JSVal)
    (hfalsy : s.truthy = false)
    (_hst : r.state = s)
    (hroot : r.rootDependencies = [])
    (hown : r.ownDependencies = []) :
    incomingStateMatches options previousState s = false ∧
    canUsePreviousResult options depRun r s = false := by
  have hm : ∀ p : JSVal, incomingStateMatches options p s = false := by
    intro p
    unfold incomingStateMatches
    simp [hfalsy]
  refine ⟨hm previousState, ?_⟩
  unfold canUsePreviousResult
  simp [hm r.state, hroot, hown]

/-- Witness for C10: a record storing the identical falsy state `null` with a
cached value is still not reusable. -/
theorem falsy_state_never_matches_witness :
    (jsNull.truthy = false ∧
      ({ createResultRecord jsNull with
          hasReturnValue := true, returnValue := ⟨10, true⟩ }).state = jsNull) ∧
    canUsePreviousResult
      ⟨false, none, fun a b => a == b, true, true⟩
      (fun _ => ⟨true, jsNull⟩)
      { createResultRecord jsNull with
          hasReturnValue := true, returnValue := ⟨10, true⟩ }
      jsNull = false :=
  ⟨⟨by decide, by decide⟩,
   (falsy_state_never_matches ⟨false, none, fun a b => a == b, true, true⟩
      (fun _ => ⟨true, jsNull⟩)
      { createResultRecord jsNull with
          hasReturnValue := true, returnValue := ⟨10, true⟩ }
      jsNull jsNull (by decide) (by decide) (by decide) (by decide)).2⟩

/-! ### Claim C6 -/

/-- Claim C6: the call-stack invariant — no frame has `canReRun = true` while
the frame directly beneath it has `canReRun = false` — is preserved by every
push whose override either omits `canReRun` or sets it to `false` (the only
overrides the source ever passes), and by every pop; moreover, when the
override omits `canReRun`, the new frame receives the current top frame's
`canReRun` value (`true` when the stack is empty). -/
theorem pushCallStackEntry_preserves_canReRun_invariant
    (stack : List CallStackEntry) (state : JSVal) (ov : CallStackOverrides)
    (hok : canReRunNeverWidens stack = true)
    (hov : ov.canReRun = none ∨ ov.canReRun = some false) :
    canReRunNeverWidens (pushCallStackEntry stack state ov) = true ∧
    canReRunNeverWidens (popCallStackEntry stack) = true ∧
    (ov.canReRun = none →
      inheritedCanReRun (pushCallStackEntry stack state ov) =
        inheritedCanReRun stack) := by
  refine ⟨?_, canReRunNeverWidens_tail stack hok, ?_⟩
  · match stack with
    | [] =>
      rcases hov with h | h <;> simp [pushCallStackEntry, canReRunNeverWidens]
    | t :: rest =>
      unfold pushCallStackEntry canReRunNeverWidens
      simp only [Bool.and_eq_true]
      refine ⟨?_, hok⟩
      rcases hov with h | h
      · simp only [h, Option.getD, inheritedCanReRun]
        cases t.canReRun <;> rfl
      · simp only [h, Option.getD]
        rfl
  · intro h
    simp [pushCallStackEntry, inheritedCanReRun, h]

/-- Witness for C6: pushing the probe override `{ canReRun: false }` on a
well-formed two-frame stack keeps the invariant; pushing with no overrides
inherits the top frame's `canReRun`. -/
theorem pushCallStackEntry_preserves_canReRun_invariant_witness :
    (canReRunNeverWidens
        [⟨jsNull, false, true, [], []⟩, ⟨jsNull, true, true, [], []⟩] = true ∧
      (probeOverrides.canReRun = none ∨
        probeOverrides.canReRun = some false)) ∧
    canReRunNeverWidens
      (pushCallStackEntry
        [⟨jsNull, false, true, [], []⟩, ⟨jsNull, true, true, [], []⟩]
        jsNull probeOverrides) = true :=
  ⟨⟨by decide, by simp [probeOverrides]⟩,
   (pushCallStackEntry_preserves_canReRun_invariant
      [⟨jsNull, false, true, [], []⟩, ⟨jsNull, true, true, [], []⟩]
      jsNull probeOverrides (by decide) (by simp [probeOverrides])).1⟩

/-! ### Claim C8

The source intends both `createKeyFromParams` and `isRootSelector` to be
mandatory: `defaultOptions.js` gives both the `willThrowErrorIfNotSet`
default.  For `createKeyFromParams` the mechanism works — the slot is invoked
as a function on the first call, so the thunk throws.  For `isRootSelector`
the slot is only ever read as a boolean (`if (isRootSelector)`,
`isRootSelector && compareIncomingStates`), never invoked, and the thunk is a
truthy function object: a selector created without `isRootSelector` silently
behaves as a root selector instead of failing. -/

/-- A concrete innerFn outcome used in the C8 exhibit. -/
def c8Inner : InnerRun := ⟨.returned ⟨10, true⟩, [], []⟩

/-- Claim C8 exhibit: with `createKeyFromParams` missing, the first use
throws the `must be set` error (the claim holds for that option); with
`isRootSelector` missing (and a key function supplied), the first use does
not throw at all — it returns the transform's value, with the selector
silently treated as a root selector. -/
theorem firstUse_missing_isRootSelector_is_silent :
    firstUse ⟨.unsetThrower, .set false⟩ (fun _ => ⟨true, jsNull⟩) c8Inner
      ⟨20, true⟩ jsNull = .thrown mustBeSetError ∧
    firstUse ⟨.set (fun _ => 0), .unsetThrower⟩ (fun _ => ⟨true, jsNull⟩)
      c8Inner ⟨20, true⟩ jsNull = .value ⟨10, true⟩ ∧
    isRootSelectorTruthy (ConfigValue.unsetThrower) = true := by
  refine ⟨by decide, by decide, by decide⟩

/-! ### Claim C1

The source computes
`hasChanges = hasAnyDependencyChanged(rootDeps) && hasAnyDependencyChanged(ownDeps)`
— a conjunction, in every revision of the file, matching the inline comment
("if one of them has changed, we'll check our own direct dependencies; if one
of those has *also* changed, then we need to rerun").  The claim (and the
spec sentence it quotes) says recomputation is required whenever *either*
list reports a change; the code instead reuses the cached value whenever
either list reports *no* change. -/

/-- Options for the C1 counterexample: a plain non-root selector. -/
def c1xOptions : SelectorOptions :=
  { isRootSelector := false
    compareIncomingStates := none
    compareSelectorResults := fun a b => a == b
    performanceChecksEnabled := true
    warningsEnabled := true }

/-- Dependency oracle for the C1 counterexample: the root dependency
(selector 1) now returns a fresh value `⟨31, true⟩`, while the own
dependency (selector 2) still returns the captured `⟨32, true⟩`. -/
def c1xDepRun : DepRecord → DirectRunResult := fun d =>
  if d.sel = 1 then ⟨true, ⟨31, true⟩⟩ else ⟨true, ⟨32, true⟩⟩

/-- Cached record for the C1 counterexample: one root edge capturing
`⟨30, true⟩` and one own edge capturing `⟨32, true⟩`. -/
def c1xRecord : ResultRecord :=
  { state := ⟨40, true⟩
    rootDependencies := [⟨1, jsNull, ⟨30, true⟩⟩]
    ownDependencies := [⟨2, jsNull, ⟨32, true⟩⟩]
    hasReturnValue := true
    returnValue := ⟨50, true⟩
    error := none
    invokeCount := 3
    skippedRunCount := 1
    phantomRunCount := 0
    fullRunCount := 1
    abortedRunCount := 0
    errorRunCount := 0 }

/-- Counterexample to claim C1 as stated: at this concrete input the stored
state does not match the incoming state, the root-dependency list reports a
changed edge, yet the evaluation reuses the cached value (the skipped-run
counter is bumped, `returnValue` and `fullRunCount` are untouched) instead of
recomputing. -/
theorem dirty_check_root_change_alone_reuses_cache :
    incomingStateMatches c1xOptions c1xRecord.state ⟨41, true⟩ = false ∧
    hasAnyDependencyChanged c1xDepRun c1xRecord.rootDependencies = true ∧
    canUsePreviousResult c1xOptions c1xDepRun c1xRecord ⟨41, true⟩ = true ∧
    (evaluateParameterizedSelector c1xOptions c1xDepRun c8Inner true
        initialRunCounts (some c1xRecord) ⟨41, true⟩).record.returnValue =
      c1xRecord.returnValue ∧
    (evaluateParameterizedSelector c1xOptions c1xDepRun c8Inner true
        initialRunCounts (some c1xRecord) ⟨41, true⟩).record.fullRunCount =
      c1xRecord.fullRunCount ∧
    (evaluateParameterizedSelector c1xOptions c1xDepRun c8Inner true
        initialRunCounts (some c1xRecord) ⟨41, true⟩).record.skippedRunCount =
      c1xRecord.skippedRunCount + 1 := by
  refine ⟨by decide, by decide, by decide, by decide, by decide, by decide⟩

/-- Claim C1 as amended: for a non-root evaluation with a cached return
value, a stored state that does not match the incoming one, and at least one
recorded dependency edge, the dirty check reuses the cached value exactly
when the conjunction of the two list verdicts is false — recomputation is
required only when the root-level list *and* the immediate list both report a
changed (or failed) edge, and the cached value is reused whenever either list
reports no change. -/
theorem canUsePreviousResult_dirty_check_eq (options : SelectorOptions)
    (depRun : DepRecord → DirectRunResult) (record : ResultRecord)
    (state : JSVal)
    (hrv : record.hasReturnValue = true)
    (hsm : incomingStateMatches options record.state state = false)
    (hnr : options.isRootSelector = false)
    (hdeps : record.rootDependencies ≠ [] ∨ record.ownDependencies ≠ []) :
    canUsePreviousResult options depRun record state =
      !(hasAnyDependencyChanged depRun record.rootDependencies &&
        hasAnyDependencyChanged depRun record.ownDependencies) := by
  unfold canUsePreviousResult
  rw [hrv, hsm, hnr]
  have hlen : (decide (record.rootDependencies.length > 0) ||
      decide (record.ownDependencies.length > 0)) = true := by
    rcases hdeps with h | h
    · simp [List.length_pos.mpr h]
    · simp [List.length_pos.mpr h]
  simp only [Bool.not_false, Bool.true_and, hlen, if_true]
  simp

/-- Witness for the amended C1: at the C1 counterexample input the reuse
decision equals the negated conjunction of the two list verdicts. -/
theorem canUsePreviousResult_dirty_check_eq_witness :
    (c1xRecord.hasReturnValue = true ∧
      incomingStateMatches c1xOptions c1xRecord.state ⟨41, true⟩ = false ∧
      c1xOptions.isRootSelector = false ∧
      (c1xRecord.rootDependencies ≠ [] ∨ c1xRecord.ownDependencies ≠ [])) ∧
    canUsePreviousResult c1xOptions c1xDepRun c1xRecord ⟨41, true⟩ =
      !(hasAnyDependencyChanged c1xDepRun c1xRecord.rootDependencies &&
        hasAnyDependencyChanged c1xDepRun c1xRecord.ownDependencies) :=
  ⟨⟨by decide, by decide, by decide, by decide⟩,
   canUsePreviousResult_dirty_check_eq c1xOptions c1xDepRun c1xRecord
     ⟨41, true⟩ (by decide) (by decide) (by decide) (by decide)⟩

/-! ### Claim C2 -/

/-- Claim C2: a recomputation whose new value is judged equivalent (by the
configured result comparator) to the previous `returnValue`, when a previous
successful value existed, is a phantom run — the record keeps the previous
`returnValue` reference (the new value is discarded), its stored state is
updated to the incoming state, and `phantomRunCount` (not `fullRunCount`) is
incremented. -/
theorem evaluate_phantom_run (options : SelectorOptions)
    (depRun : DepRecord → DirectRunResult) (inner : InnerRun)
    (g : RunCounts) (r : ResultRecord) (s v : JSVal)
    (hperf : options.performanceChecksEnabled = true)
    (hrv : r.hasReturnValue = true)
    (hnouse : canUsePreviousResult options depRun r s = false)
    (hv : inner.result = .returned v)
    (hcmp : options.compareSelectorResults r.returnValue v = true) :
    (evaluateParameterizedSelector options depRun inner true g (some r)
        s).record.returnValue = r.returnValue ∧
    (evaluateParameterizedSelector options depRun inner true g (some r)
        s).record.state = s ∧
    (evaluateParameterizedSelector options depRun inner true g (some r)
        s).record.hasReturnValue = true ∧
    (evaluateParameterizedSelector options depRun inner true g (some r)
        s).record.phantomRunCount = r.phantomRunCount + 1 ∧
    (evaluateParameterizedSelector options depRun inner true g (some r)
        s).record.fullRunCount = r.fullRunCount := by
  have hcu : canUsePreviousResult options depRun
      { r with invokeCount := r.invokeCount + 1 } s = false := by
    rw [canUsePreviousResult_invoke_bump]
    exact hnouse
  simp only [evaluateParameterizedSelector, hperf, if_true, ite_true, hcu,
    Bool.not_true, hv, if_false, ite_false]
  simp only [hrv, hcmp, Bool.and_self, if_true, ite_true]
  simp [updateDependencyRecords_returnValue, updateDependencyRecords_state,
    updateDependencyRecords_hasReturnValue,
    updateDependencyRecords_phantomRunCount,
    updateDependencyRecords_fullRunCount]

/-- Witness for C2: a concrete phantom run (the transform returns a fresh
value that the comparator judges equal to the cached one). -/
theorem evaluate_phantom_run_witness :
    (c1xOptions.performanceChecksEnabled = true ∧
      c1xRecord.hasReturnValue = true ∧
      canUsePreviousResult c1xOptions (fun _ => ⟨true, ⟨31, true⟩⟩)
        c1xRecord ⟨41, true⟩ = false ∧
      (InnerRun.mk (.returned ⟨50, true⟩) [] []).result =
        .returned ⟨50, true⟩ ∧
      c1xOptions.compareSelectorResults c1xRecord.returnValue ⟨50, true⟩ =
        true) ∧
    (evaluateParameterizedSelector c1xOptions (fun _ => ⟨true, ⟨31, true⟩⟩)
        (InnerRun.mk (.returned ⟨50, true⟩) [] []) true initialRunCounts
        (some c1xRecord) ⟨41, true⟩).record.phantomRunCount =
      c1xRecord.phantomRunCount + 1 :=
  ⟨⟨by decide, by decide, by decide, by decide, by decide⟩,
   (evaluate_phantom_run c1xOptions (fun _ => ⟨true, ⟨31, true⟩⟩)
      (InnerRun.mk (.returned ⟨50, true⟩) [] []) initialRunCounts c1xRecord
      ⟨41, true⟩ ⟨50, true⟩ (by decide) (by decide) (by decide) (by decide)
      (by decide)).2.2.2.1⟩

/-! ### Claim C5 -/

/-- Claim C5: when an externally initiated call recomputes and the transform
function throws, the error is caught at the recomputation boundary and
recorded on the result record (`error` set, `hasReturnValue` cleared,
`returnValue` cleared to `undefined`), it is reported through the warning
channel, and the public wrapper re-throws the same error object to the
external caller. -/
theorem parameterizedSelector_rethrows_transform_error
    (options : SelectorOptions) (depRun : DepRecord → DirectRunResult)
    (inner : InnerRun) (g : RunCounts) (stored : Option ResultRecord)
    (s e : JSVal)
    (hwarn : options.warningsEnabled = true)
    (hthrew : inner.result = .threw e)
    (hnouse : canUsePreviousResult options depRun
      (stored.getD (createResultRecord s)) s = false) :
    (parameterizedSelector options depRun inner g stored
        s).1.record.error = some e ∧
    (parameterizedSelector options depRun inner g stored
        s).1.record.hasReturnValue = false ∧
    (parameterizedSelector options depRun inner g stored
        s).1.record.returnValue = jsUndefined ∧
    (parameterizedSelector options depRun inner g stored
        s).1.warnedInnerFnException = true ∧
    (parameterizedSelector options depRun inner g stored s).2 =
      .thrown e := by
  have key : ∀ r : ResultRecord,
      canUsePreviousResult options depRun r s = false →
      (evaluateParameterizedSelector options depRun inner true g (some r)
          s).record.error = some e ∧
      (evaluateParameterizedSelector options depRun inner true g (some r)
          s).record.hasReturnValue = false ∧
      (evaluateParameterizedSelector options depRun inner true g (some r)
          s).record.returnValue = jsUndefined ∧
      (evaluateParameterizedSelector options depRun inner true g (some r)
          s).warnedInnerFnException = true := by
    intro r hr
    by_cases hp : options.performanceChecksEnabled
    · simp only [evaluateParameterizedSelector, hp, if_true, ite_true,
        canUsePreviousResult_invoke_bump, hr, Bool.not_true, if_false,
        ite_false, hthrew]
      simp [updateDependencyRecords_error, updateDependencyRecords_returnValue,
        updateDependencyRecords_hasReturnValue, hwarn]
    · simp only [evaluateParameterizedSelector, hp, if_false, ite_false,
        Bool.not_true, hthrew]
      simp [hr, hwarn, updateDependencyRecords_error,
        updateDependencyRecords_returnValue,
        updateDependencyRecords_hasReturnValue]
  match stored with
  | some r =>
    have h := key r (by simpa using hnouse)
    simp only [parameterizedSelector]
    refine ⟨h.1, h.2.1, h.2.2.1, h.2.2.2, ?_⟩
    rw [h.1]
  | none =>
    have hc : evaluateParameterizedSelector options depRun inner true g
        none s = evaluateParameterizedSelector options depRun inner true g
        (some (createResultRecord s)) s := rfl
    have h := key (createResultRecord s) (by simpa using hnouse)
    simp only [parameterizedSelector, hc]
    refine ⟨h.1, h.2.1, h.2.2.1, h.2.2.2, ?_⟩
    rw [h.1]

/-- Witness for C5: a first call whose transform throws a concrete error
object records it and re-throws the same object. -/
theorem parameterizedSelector_rethrows_transform_error_witness :
    (c1xOptions.warningsEnabled = true ∧
      (InnerRun.mk (.threw ⟨60, true⟩) [] []).result = .threw ⟨60, true⟩ ∧
      canUsePreviousResult c1xOptions (fun _ => ⟨true, jsNull⟩)
        ((none : Option ResultRecord).getD
          (createResultRecord ⟨20, true⟩)) ⟨20, true⟩ = false) ∧
    (parameterizedSelector c1xOptions (fun _ => ⟨true, jsNull⟩)
        (InnerRun.mk (.threw ⟨60, true⟩) [] []) initialRunCounts none
        ⟨20, true⟩).2 = .thrown ⟨60, true⟩ :=
  ⟨⟨by decide, by decide, by decide⟩,
   (parameterizedSelector_rethrows_transform_error c1xOptions
      (fun _ => ⟨true, jsNull⟩) (InnerRun.mk (.threw ⟨60, true⟩) [] [])
      initialRunCounts none ⟨20, true⟩ ⟨60, true⟩ (by decide) (by decide)
      (by decide)).2.2.2.2⟩

/-! ### Skip-step and fold lemmas -/

theorem evaluate_skip_step (options : SelectorOptions)
    (depRun : DepRecord → DirectRunResult) (inner : InnerRun) (pcr : Bool)
    (g : RunCounts) (r : ResultRecord) (s : JSVal)
    (hperf : options.performanceChecksEnabled = true)
    (hrv : r.hasReturnValue = true)
    (hst : r.state = s)
    (hmatch : incomingStateMatches options s s = true) :
    evaluateParameterizedSelector options depRun inner pcr g (some r) s =
      ⟨{ g with
          invokeCount := g.invokeCount + 1
          skippedRunCount := g.skippedRunCount + 1 },
       { r with
          invokeCount := r.invokeCount + 1
          skippedRunCount := r.skippedRunCount + 1 },
       false⟩ := by
  have hcu : canUsePreviousResult options depRun
      { r with invokeCount := r.invokeCount + 1 } s = true := by
    rw [canUsePreviousResult_invoke_bump]
    unfold canUsePreviousResult
    rw [hrv, hst, hmatch]
    simp
  simp only [evaluateParameterizedSelector, hperf, if_true, ite_true, hcu]
  simp [← hst]

theorem runCalls_skip_fold (options : SelectorOptions)
    (depRun : DepRecord → DirectRunResult) (calls : List CallSpec)
    (g : RunCounts) (r : ResultRecord) (s : JSVal)
    (hperf : options.performanceChecksEnabled = true)
    (hrv : r.hasReturnValue = true)
    (hst : r.state = s)
    (hmatch : incomingStateMatches options s s = true)
    (hcalls : ∀ c ∈ calls, c.state = s) :
    runCalls options depRun calls g (some r) =
      ({ g with
          invokeCount := g.invokeCount + calls.length
          skippedRunCount := g.skippedRunCount + calls.length },
       some { r with
          invokeCount := r.invokeCount + calls.length
          skippedRunCount := r.skippedRunCount + calls.length }) := by
  induction calls generalizing g r with
  | nil => simp [runCalls]
  | cons c cs ih =>
    have hcs : c.state = s := hcalls c (List.mem_cons_self c cs)
    unfold runCalls
    rw [hcs, evaluate_skip_step options depRun c.inner c.parentCanReRun g r s
      hperf hrv hst hmatch]
    simp only [List.length_cons]
    rw [ih
        { g with
          invokeCount := g.invokeCount + 1
          skippedRunCount := g.skippedRunCount + 1 }
        { r with
          invokeCount := r.invokeCount + 1
          skippedRunCount := r.skippedRunCount + 1 }
        hrv hst (fun d hd => hcalls d (List.mem_cons_of_mem c hd))]
    simp only [Prod.mk.injEq, Option.some.injEq, RunCounts.mk.injEq,
      ResultRecord.mk.injEq, eq_self_iff_true, and_true, true_and]
    omega

theorem evaluate_first_full_run (options : SelectorOptions)
    (depRun : DepRecord → DirectRunResult) (inner : InnerRun)
    (g : RunCounts) (s v : JSVal)
    (hperf : options.performanceChecksEnabled = true)
    (hv : inner.result = .returned v) :
    (evaluateParameterizedSelector options depRun inner true g none
        s).record.returnValue = v ∧
    (evaluateParameterizedSelector options depRun inner true g none
        s).record.fullRunCount = 1 ∧
    (evaluateParameterizedSelector options depRun inner true g none
        s).record.hasReturnValue = true ∧
    (evaluateParameterizedSelector options depRun inner true g none
        s).record.state = s ∧
    (evaluateParameterizedSelector options depRun inner true g none
        s).globals.fullRunCount = g.fullRunCount + 1 := by
  simp [evaluateParameterizedSelector, hperf, hv, createResultRecord,
    canUsePreviousResult, updateDependencyRecords_returnValue,
    updateDependencyRecords_fullRunCount,
    updateDependencyRecords_hasReturnValue, updateDependencyRecords_state]

/-! ### Claim C3

Counterexample to the claim as stated: the state-identity check requires a
*truthy* state, so with the fixed state `null` every call recomputes, and a
transform that allocates a fresh value per invocation yields a different
reference and a second full run on the second call. -/

/-- First transform invocation of the C3 counterexample: returns the fresh
object `⟨10, true⟩`. -/
def c3xInnerA : InnerRun := ⟨.returned ⟨10, true⟩, [], []⟩

/-- Second transform invocation of the C3 counterexample: returns the fresh
object `⟨11, true⟩` (a new allocation, as in `params => ({ ... })`). -/
def c3xInnerB : InnerRun := ⟨.returned ⟨11, true⟩, [], []⟩

/-- Counterexample to claim C3 as stated: two calls with the identical fixed
(falsy) state `null` and fixed params produce two full runs and two distinct
references — the second call does not return the reference-identical value
and increments the full-run counter, not only the skipped counter. -/
theorem fixed_falsy_state_reruns_every_call :
    storedReturnValue (runCalls c1xOptions (fun _ => ⟨true, jsNull⟩)
        [⟨jsNull, true, c3xInnerA⟩] initialRunCounts none).2 = ⟨10, true⟩ ∧
    storedReturnValue (runCalls c1xOptions (fun _ => ⟨true, jsNull⟩)
        [⟨jsNull, true, c3xInnerA⟩, ⟨jsNull, true, c3xInnerB⟩]
        initialRunCounts none).2 = ⟨11, true⟩ ∧
    (⟨11, true⟩ : JSVal) ≠ ⟨10, true⟩ ∧
    storedRunCounts (runCalls c1xOptions (fun _ => ⟨true, jsNull⟩)
        [⟨jsNull, true, c3xInnerA⟩, ⟨jsNull, true, c3xInnerB⟩]
        initialRunCounts none).2 = ⟨2, 0, 0, 2, 0, 0⟩ := by
  refine ⟨by decide, by decide, by decide, by decide⟩

/-- Claim C3 as amended: for a fixed *truthy* state accepted by the
selector's own state-identity check against itself (automatic for non-root
selectors, and for root selectors whose incoming-state comparator — such as
the default `SAME_REFERENCE` — judges the state equal to itself), the first
call is the only full run, every later call returns the reference-identical
value, and each later call increments only the skipped-run counter. -/
theorem fixed_state_returns_identical_reference (options : SelectorOptions)
    (depRun : DepRecord → DirectRunResult) (inner : InnerRun)
    (rest : List CallSpec) (g : RunCounts) (s v : JSVal)
    (hperf : options.performanceChecksEnabled = true)
    (hmatch : incomingStateMatches options s s = true)
    (hv : inner.result = .returned v)
    (hrest : ∀ c ∈ rest, c.state = s) :
    (evaluateParameterizedSelector options depRun inner true g none
        s).record.returnValue = v ∧
    (evaluateParameterizedSelector options depRun inner true g none
        s).record.fullRunCount = 1 ∧
    (runCalls options depRun rest
        (evaluateParameterizedSelector options depRun inner true g none
          s).globals
        (some (evaluateParameterizedSelector options depRun inner true g none
          s).record)).2 =
      some { (evaluateParameterizedSelector options depRun inner true g none
            s).record with
          invokeCount := (evaluateParameterizedSelector options depRun inner
            true g none s).record.invokeCount + rest.length,
          skippedRunCount := (evaluateParameterizedSelector options depRun
            inner true g none s).record.skippedRunCount + rest.length } ∧
    (runCalls options depRun rest
        (evaluateParameterizedSelector options depRun inner true g none
          s).globals
        (some (evaluateParameterizedSelector options depRun inner true g none
          s).record)).1.fullRunCount =
      g.fullRunCount + 1 := by
  obtain ⟨hret, hfull, hhrv, hstate, hg⟩ :=
    evaluate_first_full_run options depRun inner g s v hperf hv
  have hfold := runCalls_skip_fold options depRun rest
    (evaluateParameterizedSelector options depRun inner true g none
      s).globals
    (evaluateParameterizedSelector options depRun inner true g none s).record
    s hperf hhrv hstate hmatch hrest
  refine ⟨hret, hfull, ?_, ?_⟩
  · rw [hfold]
  · rw [hfold]
    exact hg

/-- Witness for the amended C3: a concrete selector called three times with
the same truthy state keeps the first reference and full-run count 1. -/
theorem fixed_state_returns_identical_reference_witness :
    (c1xOptions.performanceChecksEnabled = true ∧
      incomingStateMatches c1xOptions ⟨20, true⟩ ⟨20, true⟩ = true ∧
      c3xInnerA.result = .returned ⟨10, true⟩ ∧
      (∀ c ∈ [CallSpec.mk ⟨20, true⟩ true c3xInnerB,
          CallSpec.mk ⟨20, true⟩ true c3xInnerB], c.state = ⟨20, true⟩)) ∧
    (evaluateParameterizedSelector c1xOptions (fun _ => ⟨true, jsNull⟩)
        c3xInnerA true initialRunCounts none ⟨20, true⟩).record.returnValue =
      ⟨10, true⟩ :=
  ⟨⟨by decide, by decide, by decide, by decide⟩,
   (fixed_state_returns_identical_reference c1xOptions
      (fun _ => ⟨true, jsNull⟩) c3xInnerA
      [CallSpec.mk ⟨20, true⟩ true c3xInnerB,
        CallSpec.mk ⟨20, true⟩ true c3xInnerB]
      initialRunCounts ⟨20, true⟩ ⟨10, true⟩ (by decide) (by decide)
      (by decide) (by decide)).1⟩

/-! ### Claim C4 -/

theorem evaluate_noReRun_preserves (options : SelectorOptions)
    (depRun : DepRecord → DirectRunResult) (inner : InnerRun)
    (g : RunCounts) (r : ResultRecord) (s : JSVal) :
    (evaluateParameterizedSelector options depRun inner false g (some r)
        s).record.fullRunCount = r.fullRunCount ∧
    (evaluateParameterizedSelector options depRun inner false g (some r)
        s).record.returnValue = r.returnValue ∧
    (evaluateParameterizedSelector options depRun inner false g (some r)
        s).globals.fullRunCount = g.fullRunCount := by
  by_cases hp : options.performanceChecksEnabled
  · simp only [evaluateParameterizedSelector, hp, if_true, ite_true]
    by_cases hcu : canUsePreviousResult options depRun
        { r with invokeCount := r.invokeCount + 1 } s = true
    · simp [hcu]
    · simp [hcu]
  · simp only [evaluateParameterizedSelector, hp, if_false, ite_false]
    by_cases hcu : canUsePreviousResult options depRun r s = true
    · simp [hcu]
    · simp [hcu]

theorem hasCachedResult_step (options : SelectorOptions)
    (depRun : DepRecord → DirectRunResult) (inner : InnerRun)
    (g : RunCounts) (stored : Option ResultRecord) (s : JSVal) :
    (hasCachedResult options depRun inner g stored s).2.record.fullRunCount =
      storedFullRunCount stored ∧
    (hasCachedResult options depRun inner g stored s).2.record.returnValue =
      storedReturnValue stored ∧
    (hasCachedResult options depRun inner g stored s).2.globals.fullRunCount =
      g.fullRunCount := by
  match stored with
  | some r => exact evaluate_noReRun_preserves options depRun inner g r s
  | none =>
    have hc : hasCachedResult options depRun inner g none s =
        hasCachedResult options depRun inner g (some (createResultRecord s))
          s := rfl
    rw [hc]
    exact evaluate_noReRun_preserves options depRun inner g
      (createResultRecord s) s

/-- Claim C4: probe non-mutation — any number of `hasCachedResult` probe
calls, starting from any store contents (hence interleaved anywhere into a
sequence of ordinary calls), never changes the `fullRunCount` reported for
the probed slot and never changes the `returnValue` stored in it; in
particular no probe completes a run of the probed selector's transform
function (a recomputation would have had to raise `fullRunCount` or replace
`returnValue`; nested dependency selectors re-run through the `depRun`
oracle, which is the accepted cost). -/
theorem hasCachedResult_never_mutates (options : SelectorOptions)
    (depRun : DepRecord → DirectRunResult)
    (probes : List (JSVal × InnerRun)) (g : RunCounts)
    (stored : Option ResultRecord) :
    storedFullRunCount (runProbes options depRun probes g stored).2 =
      storedFullRunCount stored ∧
    storedReturnValue (runProbes options depRun probes g stored).2 =
      storedReturnValue stored ∧
    (runProbes options depRun probes g stored).1.fullRunCount =
      g.fullRunCount := by
  induction probes generalizing g stored with
  | nil => exact ⟨rfl, rfl, rfl⟩
  | cons p ps ih =>
    obtain ⟨ps1, ps2⟩ := p
    have hstep := hasCachedResult_step options depRun ps2 g stored ps1
    have hrec := ih (hasCachedResult options depRun ps2 g stored ps1).2.globals
      (some (hasCachedResult options depRun ps2 g stored ps1).2.record)
    unfold runProbes
    refine ⟨?_, ?_, ?_⟩
    · rw [hrec.1]
      exact hstep.1
    · rw [hrec.2.1]
      exact hstep.2.1
    · rw [hrec.2.2]
      exact hstep.2.2

/-! ### Claim C9 -/

theorem evaluate_perf_disabled_step (options : SelectorOptions)
    (depRun : DepRecord → DirectRunResult) (inner : InnerRun) (pcr : Bool)
    (g : RunCounts) (stored : Option ResultRecord) (s : JSVal)
    (hperf : options.performanceChecksEnabled = false) :
    (evaluateParameterizedSelector options depRun inner pcr g stored
        s).globals = g ∧
    (evaluateParameterizedSelector options depRun inner pcr g stored
        s).record.runCounts = storedRunCounts stored := by
  have key : ∀ r : ResultRecord,
      (evaluateParameterizedSelector options depRun inner pcr g (some r)
          s).globals = g ∧
      (evaluateParameterizedSelector options depRun inner pcr g (some r)
          s).record.runCounts = r.runCounts := by
    intro r
    simp only [evaluateParameterizedSelector, hperf, if_false, ite_false]
    by_cases hcu : canUsePreviousResult options depRun r s = true
    · simp [hcu, ResultRecord.runCounts]
    · rcases hpc : pcr with _ | _
      · simp [hcu, ResultRecord.runCounts]
      · rcases hv : inner.result with v | e
        · simp only [hcu, hv, Bool.not_true, if_false, ite_false]
          by_cases hcmp : (r.hasReturnValue &&
              options.compareSelectorResults r.returnValue v) = true
          · simp [hcu, hcmp, ResultRecord.runCounts,
              updateDependencyRecords_invokeCount,
              updateDependencyRecords_skippedRunCount,
              updateDependencyRecords_phantomRunCount,
              updateDependencyRecords_fullRunCount,
              updateDependencyRecords_abortedRunCount,
              updateDependencyRecords_errorRunCount]
          · simp [hcu, hcmp, ResultRecord.runCounts,
              updateDependencyRecords_invokeCount,
              updateDependencyRecords_skippedRunCount,
              updateDependencyRecords_phantomRunCount,
              updateDependencyRecords_fullRunCount,
              updateDependencyRecords_abortedRunCount,
              updateDependencyRecords_errorRunCount]
        · simp [hcu, hv, ResultRecord.runCounts,
            updateDependencyRecords_invokeCount,
              updateDependencyRecords_skippedRunCount,
              updateDependencyRecords_phantomRunCount,
              updateDependencyRecords_fullRunCount,
              updateDependencyRecords_abortedRunCount,
              updateDependencyRecords_errorRunCount]
  match stored with
  | some r => exact key r
  | none =>
    have hc : evaluateParameterizedSelector options depRun inner pcr g none
        s = evaluateParameterizedSelector options depRun inner pcr g
        (some (createResultRecord s)) s := rfl
    rw [hc]
    exact key (createResultRecord s)

/-- Claim C9: with `performanceChecksEnabled = false` (the default whenever
the `__DEV__` global is not set and truthy), no per-param and no
selector-wide run counter is ever incremented by any sequence of calls —
the counters keep their initial values (`0` for a fresh slot) no matter how
many invocations, skipped runs, phantom runs, full runs, aborted runs or
error runs actually occur. -/
theorem perf_disabled_counters_frozen (options : SelectorOptions)
    (depRun : DepRecord → DirectRunResult) (calls : List CallSpec)
    (g : RunCounts) (stored : Option ResultRecord)
    (hperf : options.performanceChecksEnabled = false) :
    (runCalls options depRun calls g stored).1 = g ∧
    storedRunCounts (runCalls options depRun calls g stored).2 =
      storedRunCounts stored := by
  induction calls generalizing g stored with
  | nil => exact ⟨rfl, rfl⟩
  | cons c cs ih =>
    have hstep := evaluate_perf_disabled_step options depRun c.inner
      c.parentCanReRun g stored c.state hperf
    have hrec := ih
      (evaluateParameterizedSelector options depRun c.inner c.parentCanReRun
        g stored c.state).globals
      (some (evaluateParameterizedSelector options depRun c.inner
        c.parentCanReRun g stored c.state).record)
    unfold runCalls
    refine ⟨?_, ?_⟩
    · rw [hrec.1]
      exact hstep.1
    · rw [hrec.2]
      exact hstep.2

/-- Witness for C9: three calls (a full run, a skipped run, and a probe-style
aborted run) with performance checks disabled leave every counter at `0`. -/
theorem perf_disabled_counters_frozen_witness :
    ((SelectorOptions.mk false none (fun a b => a == b) false
        true).performanceChecksEnabled = false) ∧
    storedRunCounts (runCalls
      (SelectorOptions.mk false none (fun a b => a == b) false true)
      (fun _ => ⟨true, jsNull⟩)
      [⟨⟨20, true⟩, true, c3xInnerA⟩, ⟨⟨20, true⟩, true, c3xInnerB⟩,
        ⟨⟨21, true⟩, false, c3xInnerB⟩]
      initialRunCounts none).2 = storedRunCounts none :=
  ⟨by decide,
   (perf_disabled_counters_frozen
      (SelectorOptions.mk false none (fun a b => a == b) false true)
      (fun _ => ⟨true, jsNull⟩)
      [⟨⟨20, true⟩, true, c3xInnerA⟩, ⟨⟨20, true⟩, true, c3xInnerB⟩,
        ⟨⟨21, true⟩, false, c3xInnerB⟩]
      initialRunCounts none (by decide)).2⟩

end ParameterizedSelectors
